import Mathlib

/-!
Shallow embedding of the user-service and auth-guard logic of the
`sample_nestjs` repository (src/src/modules/user/service/user.service.ts and
src/src/Guards/AppGuard.ts), together with theorems settling the spec claims.

Modelling conventions:
  * The TypeORM repository over the `users` table is a `List User` passed and
    returned explicitly; `userRepository.save` is `saveUser`, which enforces
    the table's unique constraints on email/username the way the relational
    store does (a violated constraint surfaces as a store-level error, not a
    service-level one).
  * Async/await code is straight-line here; `Promise.all` of two reads is the
    two reads in sequence (same results on an unchanging store).
  * Thrown Nest exceptions (`ConflictException`, `NotFoundException`,
    `UnauthorizedException`) are the error side of `Except`.
  * bcrypt (`genSalt`/`hash`) is an external library, so the hashing function
    is a parameter `hash : String → String` of every operation that hashes;
    witnesses instantiate it with a concrete stand-in.
  * JS string truthiness on an optional string field (`if (x)`) is
    `x ≠ undefined ∧ x ≠ ""`, modelled on `Option String` accordingly.
-/

namespace SampleNestjs

/-! ### JS string primitives

The service uses JS `String.prototype.trim` and `String.prototype.split`;
they are embedded here over the character list of the string so that they
evaluate by kernel reduction. -/

/-- Embeds JS `trim` on the character list: drop leading and trailing
whitespace characters. -/
def trimChars (l : List Char) : List Char :=
  ((l.dropWhile Char.isWhitespace).reverse.dropWhile Char.isWhitespace).reverse

/-- Embeds JS `String.prototype.trim`. -/
def jsTrim (s : String) : String :=
  String.mk (trimChars s.toList)

/-- Embeds JS `split` on a single separator character, over character
lists: `"a b".split(" ")` is `["a","b"]`, `"".split(" ")` is `[""]`,
`"a "` splits to `["a",""]`. -/
def splitChars (sep : Char) : List Char → List (List Char)
  | [] => [[]]
  | c :: cs =>
    match splitChars sep cs with
    | [] => [[]]
    | h :: t => if c = sep then [] :: h :: t else (c :: h) :: t

/-- Embeds JS `String.prototype.split` with a one-character separator. -/
def jsSplit (s : String) (sep : Char) : List String :=
  (splitChars sep s.toList).map String.mk

/-- The `User` entity: unique `id`, unique `email`, unique `username`,
hashed `password`, and a profile field. Modelled from the spec: the entity
file is not under src/; the spec's data model says "identity record with
unique id, unique email, unique username, salted-hashed password, plus
profile fields", which `fname` stands for. -/
structure User where
  id : String
  email : String
  username : String
  password : String
  fname : String
  deriving Repr, DecidableEq

/-- The repository over the `users` table: the list of persisted records. -/
abbrev Store := List User

/-- Modelled from the spec: `CreateUserDto` (dto file not under src/) —
the create request carries username, email, password and profile fields. -/
structure CreateUserDto where
  username : String
  email : String
  password : String
  fname : String
  deriving Repr, DecidableEq

/-- Embeds `Partial<CreateUserDto>`: each field either supplied (`some`) or
omitted (`none`), as in a JS object with optional keys. -/
structure UpdateUserDto where
  username : Option String := none
  email : Option String := none
  password : Option String := none
  fname : Option String := none
  deriving Repr, DecidableEq

/-- Modelled from the spec: `UserResponseDto` / `UserMapper.toResponseDto`
(mapper file not under src/) — "Returns the created record minus the
password field", "returns sanitized result". The structure has no password
field at all. -/
structure UserResponseDto where
  id : String
  email : String
  username : String
  fname : String
  deriving Repr, DecidableEq

/-- Errors surfaced by the service.  `conflict` is `ConflictException`,
`notFound` is `NotFoundException`; `queryFailed` is the store driver's own
error for a violated unique constraint (TypeORM `QueryFailedError`), which
is NOT a Nest HTTP exception. -/
inductive ServiceError where
  | conflict (msg : String)
  | notFound (msg : String)
  | queryFailed (msg : String)
  deriving Repr, DecidableEq

/-- Discriminator: is this error a `ConflictException`? -/
def ServiceError.isConflict : ServiceError → Bool
  | .conflict _ => true
  | _ => false

/-- The exact message of `ConflictException('Email đã được sử dụng')`. -/
def emailConflictMsg : String := "Email đã được sử dụng"

/-- The exact message of `ConflictException('Tên đăng nhập đã được sử dụng')`. -/
def usernameConflictMsg : String := "Tên đăng nhập đã được sử dụng"

/-- The exact message of `NotFoundException('Không tìm thấy người dùng')`. -/
def notFoundMsg : String := "Không tìm thấy người dùng"

/-- Message of the store's unique-constraint violation. -/
def uniqueViolationMsg : String := "duplicate key value violates unique constraint"

/-- Embeds `userRepository.findOne` filtered by email. -/
def findByEmail (store : Store) (email : String) : Option User :=
  store.find? (fun u => u.email == email)

/-- Embeds `userRepository.findOne` filtered by username. -/
def findByUsername (store : Store) (username : String) : Option User :=
  store.find? (fun u => u.username == username)

/-- Embeds `userRepository.findOne` filtered by id. -/
def findById (store : Store) (id : String) : Option User :=
  store.find? (fun u => u.id == id)

/-- Embeds `UserService.findUserById`: load by id, throw `NotFoundException` if
absent. -/
def findUserById (store : Store) (id : String) : Except ServiceError User :=
  match findById store id with
  | none => .error (.notFound notFoundMsg)
  | some u => .ok u

/-- Embeds `userRepository.save(user)` as the relational store executes it: the
`users` table has unique constraints on `email` and `username`, so a save
that would duplicate another row's email or username fails with the
driver's `QueryFailedError`; otherwise the row is updated in place (same
id already present) or inserted. -/
def saveUser (store : Store) (u : User) : Except ServiceError (User × Store) :=
  if store.any (fun v => v.id != u.id && (v.email == u.email || v.username == u.username)) then
    .error (.queryFailed uniqueViolationMsg)
  else
    match findById store u.id with
    | some _ => .ok (u, store.map (fun v => if v.id == u.id then u else v))
    | none => .ok (u, store ++ [u])

/-- Embeds `UserMapper.toResponseDto`: drop the password field. -/
def toResponseDto (u : User) : UserResponseDto :=
  { id := u.id, email := u.email, username := u.username, fname := u.fname }

/-- Embeds `UserService.validateUniqueConstraints`: `Promise.all` of the email and
username lookups, then email conflict checked first, username second. -/
def validateUniqueConstraints (store : Store) (dto : CreateUserDto) :
    Except ServiceError Unit :=
  let existingEmail := findByEmail store dto.email
  let existingUsername := findByUsername store dto.username
  if existingEmail.isSome then
    .error (.conflict emailConflictMsg)
  else if existingUsername.isSome then
    .error (.conflict usernameConflictMsg)
  else
    .ok ()

/-- The normalization at the top of `UserService.create`:
`createUserDto.username = createUserDto.username.trim();`
`createUserDto.password = createUserDto.password.trim();`
(the source trims only these two fields). -/
def normalizeCreateDto (dto : CreateUserDto) : CreateUserDto :=
  { dto with username := jsTrim dto.username, password := jsTrim dto.password }

/-- Embeds `UserMapper.toEntity` applied to the dto with the hashed password,
with the fresh id the store will assign passed explicitly. Modelled from
the spec for the mapper file (not under src/): the entity carries the dto's
fields with the hashed password. -/
def toEntity (newId : String) (dto : CreateUserDto) (hashedPassword : String) : User :=
  { id := newId, email := dto.email, username := dto.username,
    password := hashedPassword, fname := dto.fname }

/-- Embeds `UserService.create`, with the pre-check reads and the save possibly
seeing different store states (`checkStore` vs `saveStore`): this models
the check-then-act window in which a concurrent request may commit.  The
sequential case is `checkStore = saveStore` (see `create`).  The source has
no try/catch around `save`, so a store error propagates unchanged. -/
def createConcurrent (hash : String → String) (newId : String)
    (checkStore saveStore : Store) (dto0 : CreateUserDto) :
    Except ServiceError (UserResponseDto × Store) :=
  let dto := normalizeCreateDto dto0
  match validateUniqueConstraints checkStore dto with
  | .error e => .error e
  | .ok () =>
    let hashedPassword := hash dto.password
    let user := toEntity newId dto hashedPassword
    match saveUser saveStore user with
    | .error e => .error e
    | .ok (savedUser, store') => .ok (toResponseDto savedUser, store')

/-- Embeds `UserService.create` in the single-request (sequential) case. -/
def create (hash : String → String) (newId : String) (store : Store)
    (dto : CreateUserDto) : Except ServiceError (UserResponseDto × Store) :=
  createConcurrent hash newId store store dto

/-- JS truthiness of the optional field combined with the `!== current`
test: `updateData.x && updateData.x !== user.x`. -/
def changedTruthy (field : Option String) (current : String) : Bool :=
  match field with
  | some v => v != "" && v != current
  | none => false

/-- Embeds `UserService.validateUpdateConstraints`: for email then username, if
the field is supplied, truthy and different from the current value, look it
up and throw `ConflictException` when a record already has it. -/
def validateUpdateConstraints (store : Store) (user : User)
    (d : UpdateUserDto) : Except ServiceError Unit :=
  if changedTruthy d.email user.email && (findByEmail store (d.email.getD "")).isSome then
    .error (.conflict emailConflictMsg)
  else if changedTruthy d.username user.username && (findByUsername store (d.username.getD "")).isSome then
    .error (.conflict usernameConflictMsg)
  else
    .ok ()

/-- The password rewrite at the top of `UserService.updateUserData`:
`if (updateData.password)` hashes only when the field is truthy
(`undefined` and the empty string both skip the hashing). -/
def hashedUpdatePassword (hash : String → String) (d : UpdateUserDto) :
    Option String :=
  match d.password with
  | some p => if p != "" then some (hash p) else some p
  | none => none

/-- Merges `Object.assign(user, updateData)` (after the password rewrite):
every supplied field, including a supplied empty string, overwrites the
record's field; omitted fields are untouched. -/
def mergeUser (hash : String → String) (user : User) (d : UpdateUserDto) : User :=
  { id := user.id
    email := d.email.getD user.email
    username := d.username.getD user.username
    password := (hashedUpdatePassword hash d).getD user.password
    fname := d.fname.getD user.fname }

/-- Embeds `UserService.updateUserData`: rewrite the password when truthy,
`Object.assign` the supplied fields onto the record, then save. -/
def updateUserData (hash : String → String) (store : Store) (user : User)
    (d : UpdateUserDto) : Except ServiceError (User × Store) :=
  saveUser store (mergeUser hash user d)

/-- Embeds `UserService.update`: load (NotFound if absent), validate the changed
unique fields, merge-and-save, sanitize. -/
def update (hash : String → String) (store : Store) (id : String)
    (d : UpdateUserDto) : Except ServiceError (UserResponseDto × Store) :=
  match findUserById store id with
  | .error e => .error e
  | .ok user =>
    match validateUpdateConstraints store user d with
    | .error e => .error e
    | .ok () =>
      match updateUserData hash store user d with
      | .error e => .error e
      | .ok (updatedUser, store') => .ok (toResponseDto updatedUser, store')

/-- The `{ deleted: true }` acknowledgment returned by `remove`. -/
structure DeleteAck where
  deleted : Bool
  deriving Repr, DecidableEq

/-- Embeds `UserService.remove`: load (NotFound if absent) then
`userRepository.remove(user)`, returning `{ deleted: true }`. -/
def remove (store : Store) (id : String) :
    Except ServiceError (DeleteAck × Store) :=
  match findUserById store id with
  | .error e => .error e
  | .ok user => .ok (⟨true⟩, store.filter (fun v => v.id != user.id))

/-- Embeds `UserService.findOne`: load by id (NotFound if absent) and sanitize. -/
def findOne (store : Store) (id : String) : Except ServiceError UserResponseDto :=
  match findUserById store id with
  | .error e => .error e
  | .ok user => .ok (toResponseDto user)

/-! ### Auth Guard (src/src/Guards/AppGuard.ts) -/

/-- The decoded JWT payload attached to the request.  The spec only fixes
that it is "a signed structure containing at least a subject identifier". -/
structure JwtPayload where
  sub : String
  deriving Repr, DecidableEq

/-- The mutable part of the HTTP request the guard touches: the
`authorization` header (possibly absent) and the `user` slot written by
`request['user'] = payload`. -/
structure Request where
  authorizationHeader : Option String
  user : Option JwtPayload := none
  deriving Repr, DecidableEq

/-- The guard's only error: `UnauthorizedException` carries no information
about which check failed. -/
inductive AuthError where
  | unauthorized
  deriving Repr, DecidableEq

/-- Embeds `AuthGuard.extractTokenFromHeader`: throw `UnauthorizedException` when
the header is absent; otherwise split on spaces, destructure
`[type, token]` (either may be missing, i.e. `undefined`, i.e. `none`), and
return the token only when the scheme is exactly `Bearer`. -/
def extractTokenFromHeader (header : Option String) :
    Except AuthError (Option String) :=
  match header with
  | none => .error .unauthorized
  | some str =>
    let parts := jsSplit str ' '
    let type := parts[0]?
    let token := parts[1]?
    if type == some "Bearer" then .ok token else .ok none

/-- Embeds `AuthGuard.canActivate`, parametrized by the JWT library's
`verifyAsync(token, { secret })` as `verify : String → Option JwtPayload`
(`none` covers every verification failure: wrong signature, expired token,
malformed payload).  `if (!token)` is JS falsiness: `undefined` or the
empty string.  On success the payload is written into `request['user']`
and `true` is returned. -/
def canActivate (verify : String → Option JwtPayload) (req : Request) :
    Except AuthError (Bool × Request) :=
  match extractTokenFromHeader req.authorizationHeader with
  | .error e => .error e
  | .ok tokenOpt =>
    match tokenOpt with
    | none => .error .unauthorized
    | some token =>
      if token == "" then .error .unauthorized
      else
        match verify token with
        | none => .error .unauthorized
        | some payload => .ok (true, { req with user := some payload })

/-! ### Auxiliary instances and concrete sample data -/

instance {ε α : Type} [DecidableEq ε] [DecidableEq α] :
    DecidableEq (Except ε α)
  | .error e, .error f =>
    if h : e = f then .isTrue (by rw [h])
    else .isFalse (fun hc => h (by injection hc))
  | .error _, .ok _ => .isFalse (fun hc => Except.noConfusion hc)
  | .ok _, .error _ => .isFalse (fun hc => Except.noConfusion hc)
  | .ok a, .ok b =>
    if h : a = b then .isTrue (by rw [h])
    else .isFalse (fun hc => h (by injection hc))

/-- A concrete stand-in for `bcrypt.hash` with its fixed salt, used by the
witnesses: prefixes the bcrypt version/cost/salt header. -/
def sampleHash (p : String) : String := "$2b$10$sample.salt.string22" ++ p

/-- A concrete stand-in for `jwtService.verifyAsync` with the configured
secret: exactly the token string "tok" verifies. -/
def sampleVerify (t : String) : Option JwtPayload :=
  if t == "tok" then some ⟨"subj-7"⟩ else none

/-- A persisted sample user. -/
def alice : User :=
  { id := "1", email := "a@x.com", username := "alice",
    password := "$2b$10$oldhash", fname := "A" }

/-- A second persisted sample user with a distinct email and username. -/
def dave : User :=
  { id := "3", email := "d@x.com", username := "dave",
    password := "$2b$10$davehash", fname := "D" }

/-- A persisted sample user whose email is the empty string (reachable:
`create` neither trims nor validates the email). -/
def bobEmptyEmail : User :=
  { id := "2", email := "", username := "bob",
    password := "$2b$10$bobhash", fname := "B" }

/-- The entity a fresh `create` persists: id assigned by the store, email
as supplied, username and password trimmed, password hashed. -/
def createdEntity (hash : String → String) (newId : String)
    (dto : CreateUserDto) : User :=
  toEntity newId (normalizeCreateDto dto) (hash (jsTrim dto.password))

/-! ### Helper lemmas -/

/-- A successful `saveUser` returns exactly the record it was given, and
that record is in the resulting store. -/
lemma saveUser_ok (store : Store) (u : User) (u' : User) (s' : Store)
    (h : saveUser store u = .ok (u', s')) : u' = u ∧ u ∈ s' := by
  unfold saveUser at h
  split at h
  · simp at h
  · split at h
    next w hw =>
      injection h with h
      injection h with h1 h2
      subst h1; subst h2
      refine ⟨rfl, ?_⟩
      unfold findById at hw
      have hwmem := List.mem_of_find?_eq_some hw
      have hwid : (w.id == u.id) = true :=
        List.find?_some (p := fun v : User => v.id == u.id) hw
      refine List.mem_map.mpr ⟨w, hwmem, ?_⟩
      simp [hwid]
    next hw =>
      injection h with h
      injection h with h1 h2
      subst h1; subst h2
      exact ⟨rfl, by simp⟩

/-- A fresh create (email absent, trimmed username absent, fresh id)
persists exactly the created entity at the end of the store and returns
its sanitized form. -/
lemma create_fresh_spec (hash : String → String) (newId : String)
    (store : Store) (dto : CreateUserDto)
    (hE : findByEmail store dto.email = none)
    (hU : findByUsername store (jsTrim dto.username) = none)
    (hId : findById store newId = none) :
    create hash newId store dto =
      .ok (toResponseDto (createdEntity hash newId dto),
           store ++ [createdEntity hash newId dto]) := by
  have hAny : (store.any fun v =>
      v.id != newId && (v.email == dto.email || v.username == jsTrim dto.username)) = false := by
    rw [List.any_eq_false]
    intro v hv
    have h1 := List.find?_eq_none.mp hE v hv
    have h2 := List.find?_eq_none.mp hU v hv
    simp only [Bool.not_eq_true] at h1 h2
    simp [h1, h2]
  simp [create, createConcurrent, normalizeCreateDto, validateUniqueConstraints,
    hE, hU, saveUser, toEntity, createdEntity, hAny, hId]

/-! ### Claim theorems -/

/-- Claim C1: a create request whose email is already present in the store
fails with the `Conflict` error naming the email field; a create request
whose (trimmed) username is already present (and whose email is not) fails
with the `Conflict` error naming the username field.  In both cases the
result is an error carrying no store, so no new record is persisted. -/
theorem create_conflict_on_duplicate (hash : String → String) (newId : String)
    (store : Store) (dto : CreateUserDto) :
    ((findByEmail store dto.email).isSome = true →
      create hash newId store dto = .error (.conflict emailConflictMsg))
    ∧ (findByEmail store dto.email = none →
       (findByUsername store (jsTrim dto.username)).isSome = true →
      create hash newId store dto = .error (.conflict usernameConflictMsg)) := by
  constructor
  · intro h
    simp [create, createConcurrent, normalizeCreateDto, validateUniqueConstraints, h]
  · intro h1 h2
    simp [create, createConcurrent, normalizeCreateDto, validateUniqueConstraints, h1, h2]

/-- Witness for C1 at concrete inputs: duplicate email, then duplicate
username. -/
theorem create_conflict_on_duplicate_witness :
    create sampleHash "9" [alice]
        { username := "carol", email := "a@x.com", password := "pw", fname := "C" } =
      .error (.conflict emailConflictMsg)
    ∧ create sampleHash "9" [alice]
        { username := "alice", email := "b@x.com", password := "pw", fname := "C" } =
      .error (.conflict usernameConflictMsg) :=
  ⟨(create_conflict_on_duplicate sampleHash "9" [alice]
      { username := "carol", email := "a@x.com", password := "pw", fname := "C" }).1
      (by decide),
   (create_conflict_on_duplicate sampleHash "9" [alice]
      { username := "alice", email := "b@x.com", password := "pw", fname := "C" }).2
      (by decide) (by decide)⟩

/-- Claim C2: a create request whose email and trimmed username are absent
from the store succeeds; the persisted record's password is the hash of
the (trimmed) supplied password, hence differs from the raw password
whenever the hash does (bcrypt's salted output never echoes its input);
and the returned value is `toResponseDto` of the record, whose type
`UserResponseDto` has no password field at all. -/
theorem create_fresh_succeeds (hash : String → String) (newId : String)
    (store : Store) (dto : CreateUserDto)
    (hE : findByEmail store dto.email = none)
    (hU : findByUsername store (jsTrim dto.username) = none)
    (hId : findById store newId = none)
    (hHash : hash (jsTrim dto.password) ≠ dto.password) :
    create hash newId store dto =
      .ok (toResponseDto (createdEntity hash newId dto),
           store ++ [createdEntity hash newId dto])
    ∧ (createdEntity hash newId dto).password = hash (jsTrim dto.password)
    ∧ (createdEntity hash newId dto).password ≠ dto.password := by
  refine ⟨create_fresh_spec hash newId store dto hE hU hId, rfl, ?_⟩
  simpa [createdEntity, toEntity] using hHash

/-- Witness for C2: creating alice on an empty store. -/
theorem create_fresh_succeeds_witness :
    create sampleHash "1" []
        { username := "alice", email := "a@x.com", password := "secret", fname := "A" } =
      .ok ({ id := "1", email := "a@x.com", username := "alice", fname := "A" },
           [{ id := "1", email := "a@x.com", username := "alice",
              password := sampleHash "secret", fname := "A" }])
    ∧ sampleHash "secret" ≠ "secret" := by
  have h := create_fresh_succeeds sampleHash "1" []
    { username := "alice", email := "a@x.com", password := "secret", fname := "A" }
    rfl rfl rfl (by decide)
  exact ⟨h.1, by decide⟩

/-- Claim C6 counterexample: `create` does not trim the email.  Creating
with the email `" a@x.com "` persists the email with its surrounding
whitespace intact, although its trimmed form differs — so the claim that
both identifying fields (email and username) are trimmed before the
uniqueness checks and persist is false for the email. -/
theorem create_email_not_trimmed_counterexample :
    create sampleHash "9" []
        { username := "carol", email := " a@x.com ", password := "pw", fname := "C" } =
      .ok ({ id := "9", email := " a@x.com ", username := "carol", fname := "C" },
           [{ id := "9", email := " a@x.com ", username := "carol",
              password := sampleHash "pw", fname := "C" }])
    ∧ jsTrim " a@x.com " ≠ " a@x.com " := by
  refine ⟨rfl, by decide⟩

/-- Claim C6 as amended: for a fresh create, the persisted record carries
the username trimmed and the password hashed-after-trimming, but the email
exactly as supplied (untrimmed); the uniqueness checks likewise consult
the trimmed username and the untrimmed email. -/
theorem create_trims_username_password_not_email (hash : String → String)
    (newId : String) (store : Store) (dto : CreateUserDto)
    (hE : findByEmail store dto.email = none)
    (hU : findByUsername store (jsTrim dto.username) = none)
    (hId : findById store newId = none) :
    create hash newId store dto =
      .ok (toResponseDto (createdEntity hash newId dto),
           store ++ [createdEntity hash newId dto])
    ∧ (createdEntity hash newId dto).email = dto.email
    ∧ (createdEntity hash newId dto).username = jsTrim dto.username
    ∧ (createdEntity hash newId dto).password = hash (jsTrim dto.password) :=
  ⟨create_fresh_spec hash newId store dto hE hU hId, rfl, rfl, rfl⟩

/-- Witness for the amended C6: create with whitespace around every
identifying field; only username and password end up trimmed. -/
theorem create_trims_username_password_not_email_witness :
    create sampleHash "9" []
        { username := " carol ", email := " c@x.com ", password := " pw ", fname := "C" } =
      .ok ({ id := "9", email := " c@x.com ", username := "carol", fname := "C" },
           [{ id := "9", email := " c@x.com ", username := "carol",
              password := sampleHash "pw", fname := "C" }]) := by
  have h := create_trims_username_password_not_email sampleHash "9" []
    { username := " carol ", email := " c@x.com ", password := " pw ", fname := "C" }
    rfl (by decide) rfl
  exact h.1

/-- Claim C3 counterexample: updating alice's email to the empty string —
a value owned by the different user `bobEmptyEmail` — does NOT fail with
`Conflict`: the truthiness guard `updateData.email && ...` skips the
uniqueness pre-check for the empty string, and the failure that surfaces
is the store's own unique-constraint error instead. -/
theorem update_empty_email_counterexample :
    findById [alice, bobEmptyEmail] "1" = some alice
    ∧ findByEmail [alice, bobEmptyEmail] "" = some bobEmptyEmail
    ∧ bobEmptyEmail.id ≠ alice.id
    ∧ update sampleHash [alice, bobEmptyEmail] "1" { email := some "" } =
        .error (.queryFailed uniqueViolationMsg)
    ∧ (ServiceError.queryFailed uniqueViolationMsg).isConflict = false := by
  exact ⟨rfl, rfl, by decide, rfl, rfl⟩

/-- Claim C3 as amended: for an existing user, updating the email to a
non-empty value different from the user's own and already present in the
store fails with the email `Conflict`; likewise for username (when the
email field causes no earlier conflict); and updating the email to the
user's own current value skips the uniqueness check and the update
succeeds. -/
theorem update_conflict_validation (hash : String → String) (store : Store)
    (id : String) (user : User) (d : UpdateUserDto)
    (hFind : findById store id = some user) :
    (∀ e, d.email = some e → e ≠ "" → e ≠ user.email →
        (findByEmail store e).isSome = true →
        update hash store id d = .error (.conflict emailConflictMsg))
    ∧ (∀ un, d.username = some un → un ≠ "" → un ≠ user.username →
        (findByUsername store un).isSome = true →
        (d.email = none ∨ d.email = some user.email) →
        update hash store id d = .error (.conflict usernameConflictMsg))
    ∧ (d.email = some user.email → d.username = none → d.password = none →
       d.fname = none →
       (store.any fun v => v.id != user.id &&
          (v.email == user.email || v.username == user.username)) = false →
       update hash store id d = .ok (toResponseDto user,
         store.map fun v => if v.id == user.id then user else v)) := by
  refine ⟨?_, ?_, ?_⟩
  · intro e he hne hneq hsome
    simp [update, findUserById, hFind, validateUpdateConstraints,
      changedTruthy, he, hne, hneq, hsome]
  · intro un hun hne hneq hsome hemail
    rcases hemail with hemail | hemail <;>
      simp [update, findUserById, hFind, validateUpdateConstraints,
        changedTruthy, hun, hne, hneq, hsome, hemail]
  · intro h1 h2 h3 h4 hAny
    unfold findById at hFind
    have hid : (user.id == id) = true :=
      List.find?_some (p := fun v : User => v.id == id) hFind
    have hid' : user.id = id := by simpa using hid
    subst hid'
    have hmerge : mergeUser hash user d = user := by
      simp [mergeUser, hashedUpdatePassword, h1, h2, h3, h4]
    simp [update, findUserById, findById, hFind, validateUpdateConstraints,
      changedTruthy, h1, h2, updateUserData, hmerge, saveUser, hAny]

/-- Witness for the amended C3: updating alice's email to dave's email
conflicts; updating it to her own email succeeds. -/
theorem update_conflict_validation_witness :
    update sampleHash [alice, dave] "1" { email := some "d@x.com" } =
      .error (.conflict emailConflictMsg)
    ∧ update sampleHash [alice, dave] "1" { email := some "a@x.com" } =
      .ok (toResponseDto alice,
        [alice, dave].map fun v => if v.id == alice.id then alice else v) := by
  have h1 := update_conflict_validation sampleHash [alice, dave] "1" alice
    { email := some "d@x.com" } (by decide)
  have h2 := update_conflict_validation sampleHash [alice, dave] "1" alice
    { email := some "a@x.com" } (by decide)
  exact ⟨h1.1 "d@x.com" rfl (by decide) (by decide) (by decide),
    h2.2.2 (by decide) rfl rfl rfl (by decide)⟩

/-- Claim C4: whenever the Authorization header is absent, or its scheme
is not `Bearer`, or it has no token part, or the token part is the empty
string, or the token fails verification (bad signature, expired,
malformed — all are `verify t = none`), the guard fails with the one and
only authentication error `unauthorized`, which carries no information
about which check failed; an error result means no handler runs. -/
theorem guard_unauthorized_on_failure (verify : String → Option JwtPayload)
    (req : Request) :
    (req.authorizationHeader = none →
       canActivate verify req = .error .unauthorized)
    ∧ (∀ s, req.authorizationHeader = some s →
       (jsSplit s ' ')[0]? ≠ some "Bearer" →
       canActivate verify req = .error .unauthorized)
    ∧ (∀ s, req.authorizationHeader = some s → (jsSplit s ' ')[1]? = none →
       canActivate verify req = .error .unauthorized)
    ∧ (∀ s, req.authorizationHeader = some s → (jsSplit s ' ')[1]? = some "" →
       canActivate verify req = .error .unauthorized)
    ∧ (∀ s t, req.authorizationHeader = some s →
       (jsSplit s ' ')[1]? = some t → verify t = none →
       canActivate verify req = .error .unauthorized) := by
  refine ⟨?_, ?_, ?_, ?_, ?_⟩
  · intro h
    simp [canActivate, extractTokenFromHeader, h]
  · intro s hs hb
    simp [canActivate, extractTokenFromHeader, hs, hb]
  · intro s hs ht
    by_cases hB : ((jsSplit s ' ')[0]? == some "Bearer") = true <;>
      simp [canActivate, extractTokenFromHeader, hs, ht, hB]
  · intro s hs ht
    by_cases hB : ((jsSplit s ' ')[0]? == some "Bearer") = true <;>
      simp [canActivate, extractTokenFromHeader, hs, ht, hB]
  · intro s t hs ht hv
    by_cases hB : ((jsSplit s ' ')[0]? == some "Bearer") = true
    · by_cases hE : (t == "") = true <;>
        simp [canActivate, extractTokenFromHeader, hs, ht, hB, hE, hv]
    · simp [canActivate, extractTokenFromHeader, hs, hB]

/-- Witness for C4: absent header, non-Bearer scheme, scheme without a
token, and a well-formed token that fails verification all yield the same
`unauthorized` error. -/
theorem guard_unauthorized_on_failure_witness :
    canActivate sampleVerify { authorizationHeader := none } = .error .unauthorized
    ∧ canActivate sampleVerify { authorizationHeader := some "Basic tok" } =
        .error .unauthorized
    ∧ canActivate sampleVerify { authorizationHeader := some "Bearer" } =
        .error .unauthorized
    ∧ canActivate sampleVerify { authorizationHeader := some "Bearer bad" } =
        .error .unauthorized :=
  ⟨(guard_unauthorized_on_failure sampleVerify
      { authorizationHeader := none }).1 rfl,
   (guard_unauthorized_on_failure sampleVerify
      { authorizationHeader := some "Basic tok" }).2.1 "Basic tok" rfl (by decide),
   (guard_unauthorized_on_failure sampleVerify
      { authorizationHeader := some "Bearer" }).2.2.1 "Bearer" rfl (by decide),
   (guard_unauthorized_on_failure sampleVerify
      { authorizationHeader := some "Bearer bad" }).2.2.2.2 "Bearer bad" "bad"
      rfl (by decide) (by decide)⟩

/-- Claim C5: a request with a well-formed `Bearer token` header whose
non-empty token verifies against the configured secret makes the guard
return `true` and attach the decoded payload to the request's `user`
slot, where downstream operations read it. -/
theorem guard_success_attaches_identity (verify : String → Option JwtPayload)
    (req : Request) (hdr tok : String) (payload : JwtPayload)
    (hHeader : req.authorizationHeader = some hdr)
    (hSplit : jsSplit hdr ' ' = ["Bearer", tok])
    (hNonempty : tok ≠ "")
    (hVerify : verify tok = some payload) :
    canActivate verify req = .ok (true, { req with user := some payload }) := by
  simp [canActivate, extractTokenFromHeader, hHeader, hSplit, hNonempty, hVerify]

/-- Witness for C5: the sample verifier accepts "tok" and the payload is
attached. -/
theorem guard_success_attaches_identity_witness :
    canActivate sampleVerify { authorizationHeader := some "Bearer tok" } =
      .ok (true, { authorizationHeader := some "Bearer tok",
                   user := some ⟨"subj-7"⟩ }) :=
  guard_success_attaches_identity sampleVerify
    { authorizationHeader := some "Bearer tok" } "Bearer tok" "tok" ⟨"subj-7"⟩
    rfl (by decide) (by decide) (by decide)

/-- Claim C7, the code's divergence from the spec: when the pre-check
passes against the state it read but a concurrent commit makes the save
violate the store's unique constraint, `create` surfaces the store's
`queryFailed` error unchanged (there is no try/catch around `save`), NOT
the `Conflict` error the spec requires for this case. -/
theorem concurrent_create_unique_violation_not_conflict :
    validateUniqueConstraints [] (normalizeCreateDto
      { username := "carol", email := "a@x.com", password := "pw", fname := "C" }) = .ok ()
    ∧ createConcurrent sampleHash "9" [] [alice]
        { username := "carol", email := "a@x.com", password := "pw", fname := "C" } =
      .error (.queryFailed uniqueViolationMsg)
    ∧ (ServiceError.queryFailed uniqueViolationMsg).isConflict = false :=
  ⟨rfl, rfl, rfl⟩

/-- Claim C8 counterexample: updating with the password field supplied as
the empty string stores the empty string verbatim — not its hash — so
"a supplied password is stored hashed" is false for the empty string. -/
theorem update_empty_password_counterexample :
    updateUserData sampleHash [alice] alice { password := some "" } =
      .ok ({ id := "1", email := "a@x.com", username := "alice",
             password := "", fname := "A" },
           [{ id := "1", email := "a@x.com", username := "alice",
              password := "", fname := "A" }])
    ∧ ("" : String) ≠ sampleHash "" :=
  ⟨rfl, by decide⟩

/-- Claim C8 as amended (frame property of `updateUserData`): every field
not supplied in the update data is unchanged on the saved record; a
supplied non-empty password is stored hashed; an omitted password leaves
the stored hash unchanged; a supplied empty-string password is stored as
the empty string verbatim (the truthiness guard skips hashing). -/
theorem updateUserData_frame (hash : String → String) (store : Store)
    (user : User) (d : UpdateUserDto) (u' : User) (s' : Store)
    (hOk : updateUserData hash store user d = .ok (u', s')) :
    u'.id = user.id
    ∧ (d.email = none → u'.email = user.email)
    ∧ (d.username = none → u'.username = user.username)
    ∧ (d.fname = none → u'.fname = user.fname)
    ∧ (d.password = none → u'.password = user.password)
    ∧ (∀ p, d.password = some p → p ≠ "" → u'.password = hash p)
    ∧ (d.password = some "" → u'.password = "") := by
  have hOk' : saveUser store (mergeUser hash user d) = .ok (u', s') := hOk
  obtain ⟨h1, _⟩ := saveUser_ok store (mergeUser hash user d) u' s' hOk'
  subst h1
  refine ⟨rfl, ?_, ?_, ?_, ?_, ?_, ?_⟩
  · intro h; simp [mergeUser, h]
  · intro h; simp [mergeUser, h]
  · intro h; simp [mergeUser, h]
  · intro h; simp [mergeUser, hashedUpdatePassword, h]
  · intro p h hp; simp [mergeUser, hashedUpdatePassword, h, hp]
  · intro h; simp [mergeUser, hashedUpdatePassword, h]

/-- Witness for the amended C8: updating alice with only a new password
leaves every other field unchanged and stores the hash. -/
theorem updateUserData_frame_witness :
    ({ id := "1", email := "a@x.com", username := "alice",
       password := sampleHash "npw", fname := "A" } : User).email = alice.email
    ∧ ({ id := "1", email := "a@x.com", username := "alice",
         password := sampleHash "npw", fname := "A" } : User).password =
        sampleHash "npw" := by
  have h := updateUserData_frame sampleHash [alice] alice { password := some "npw" }
    { id := "1", email := "a@x.com", username := "alice",
      password := sampleHash "npw", fname := "A" }
    [{ id := "1", email := "a@x.com", username := "alice",
       password := sampleHash "npw", fname := "A" }] rfl
  exact ⟨h.2.1 rfl, h.2.2.2.2.2.1 "npw" rfl (by decide)⟩

/-- Claim C9: `remove`, `update` and `findOne` on an id absent from the
store all fail with the `NotFound` error (an error result carries no
store, so nothing changes); `remove` on a present id returns the deletion
acknowledgment and the store with that record deleted. -/
theorem remove_update_findOne_notfound (store : Store) (id : String)
    (hash : String → String) (d : UpdateUserDto) :
    (findById store id = none →
       remove store id = .error (.notFound notFoundMsg)
       ∧ update hash store id d = .error (.notFound notFoundMsg)
       ∧ findOne store id = .error (.notFound notFoundMsg))
    ∧ (∀ u, findById store id = some u →
       remove store id = .ok (⟨true⟩, store.filter fun v => v.id != u.id)) := by
  constructor
  · intro h
    refine ⟨?_, ?_, ?_⟩ <;> simp [remove, update, findOne, findUserById, h]
  · intro u h
    simp [remove, findUserById, h]

/-- Witness for C9: a missing id fails everywhere with `NotFound`; a
present id is deleted with the acknowledgment. -/
theorem remove_update_findOne_notfound_witness :
    (remove [alice] "9" = .error (.notFound notFoundMsg)
     ∧ update sampleHash [alice] "9" {} = .error (.notFound notFoundMsg)
     ∧ findOne [alice] "9" = .error (.notFound notFoundMsg))
    ∧ remove [alice] "1" = .ok (⟨true⟩, []) := by
  refine ⟨(remove_update_findOne_notfound [alice] "9" sampleHash {}).1 (by decide), ?_⟩
  have h := (remove_update_findOne_notfound [alice] "1" sampleHash {}).2 alice (by decide)
  simpa [alice] using h

/-- Claim C10: an update whose password field is the empty string skips
the hashing (the truthiness guard treats it as no new password) but the
merge still copies it, so the saved record's password is the empty string
verbatim, and that record is what the store now holds. -/
theorem update_empty_string_password_stored_verbatim (hash : String → String)
    (store : Store) (user : User) (d : UpdateUserDto) (u' : User) (s' : Store)
    (hp : d.password = some "")
    (hOk : updateUserData hash store user d = .ok (u', s')) :
    u'.password = "" ∧ u' ∈ s' := by
  have hOk' : saveUser store (mergeUser hash user d) = .ok (u', s') := hOk
  obtain ⟨h1, h2⟩ := saveUser_ok store (mergeUser hash user d) u' s' hOk'
  subst h1
  exact ⟨by simp [mergeUser, hashedUpdatePassword, hp], h2⟩

/-- Witness for C10: updating alice with the empty-string password stores
it verbatim. -/
theorem update_empty_string_password_stored_verbatim_witness :
    ({ id := "1", email := "a@x.com", username := "alice",
       password := "", fname := "A" } : User).password = ""
    ∧ ({ id := "1", email := "a@x.com", username := "alice",
         password := "", fname := "A" } : User) ∈
      ([{ id := "1", email := "a@x.com", username := "alice",
          password := "", fname := "A" }] : Store) :=
  update_empty_string_password_stored_verbatim sampleHash [alice] alice
    { password := some "" }
    { id := "1", email := "a@x.com", username := "alice",
      password := "", fname := "A" }
    [{ id := "1", email := "a@x.com", username := "alice",
       password := "", fname := "A" }] rfl rfl

end SampleNestjs
